import Mathlib

/-!
Verification of the provider-abstraction layer of an LLM chat gateway:
conversation-context windowing (`context_manager.py`), the gateway
dispatcher's context construction, validation and error mapping
(`main.py`), and the per-provider request preprocessing and error
normalisation (`api_clients/*.py`).  Python dicts `{"role": r,
"content": c}` are embedded as a `Message` structure; Python's
`Optional[int]` depth as `Option Int`; string truthiness (`if s:`) as
`s ≠ ""`.
-/

/-- The three admissible message roles (`Literal["system","user","assistant"]`). -/
inductive Role where
  | system
  | user
  | assistant
deriving DecidableEq, Repr

/-- A chat message: the dict `{"role": role, "content": content}`. -/
structure Message where
  role : Role
  content : String
deriving DecidableEq, Repr

/-- `ConversationContext.get_context(depth)` from `context_manager.py`:
`depth` of `None` or `<= 0` returns the whole list; otherwise the leading
system message (if any) is set aside, the remaining messages are sliced
from `start_index = max(0, len - depth)`, and the system message is
prepended back. -/
def get_context (msgs : List Message) (depth : Option Int) : List Message :=
  match depth with
  | none => msgs
  | some d =>
    if d ≤ 0 then msgs
    else
      let sysAndRest : Option Message × List Message :=
        match msgs with
        | m :: rest => if m.role = .system then (some m, rest) else (none, msgs)
        | [] => (none, [])
      let actual_messages := sysAndRest.2
      let start_index : Int := max 0 ((actual_messages.length : Int) - d)
      let limited_messages := actual_messages.drop start_index.toNat
      match sysAndRest.1 with
      | some m => m :: limited_messages
      | none => limited_messages

/-- `ConversationContext.clear_context(keep_system_prompt)` from
`context_manager.py`. -/
def clear_context (msgs : List Message) (keep_system_prompt : Bool) : List Message :=
  match msgs with
  | m :: _ =>
    if keep_system_prompt ∧ m.role = .system then [⟨.system, m.content⟩] else []
  | [] => []

lemma max_zero_sub_toNat (n : ℕ) (d : ℤ) (hd : 0 ≤ d) :
    (max 0 ((n : ℤ) - d)).toNat = n - d.toNat := by
  omega

/-- The positive-depth slice of `get_context` on a list with no leading
system message is the plain trailing window. -/
lemma get_context_no_leading_system (msgs : List Message) (d : Int)
    (hd : 1 ≤ d) (h : ∀ m, msgs.head? = some m → m.role ≠ .system) :
    get_context msgs (some d) = msgs.drop (msgs.length - d.toNat) := by
  have hmax := max_zero_sub_toNat msgs.length d (by omega)
  simp only [get_context]
  rw [if_neg (by omega)]
  match msgs with
  | [] => simp
  | m :: rest =>
    have hm : m.role ≠ .system := h m rfl
    simp only [if_neg hm]
    have h2 : (0 ⊔ ((rest.length : ℤ) + 1 - d)).toNat = rest.length + 1 - d.toNat := by
      omega
    simp [h2]

theorem drop_window_length (l : List Message) (k : ℕ) :
    (l.drop (l.length - k)).length = min k l.length := by
  rw [List.length_drop]
  omega

/-- C1: a context of an optional leading system message followed by
non-system messages, exported at depth `d ≥ 1`, yields the system message
(when present) followed by exactly the last `min d N` non-system messages
in their original order (the trailing window is a suffix, so relative
order is preserved). -/
theorem get_context_window (s : Message) (hs : s.role = .system)
    (ns : List Message) (hns : ∀ m ∈ ns, m.role ≠ .system)
    (d : Int) (hd : 1 ≤ d) :
    get_context (s :: ns) (some d) = s :: ns.drop (ns.length - d.toNat)
    ∧ get_context ns (some d) = ns.drop (ns.length - d.toNat)
    ∧ (ns.drop (ns.length - d.toNat)).length = min d.toNat ns.length := by
  refine ⟨?_, ?_, drop_window_length ns d.toNat⟩
  · simp only [get_context]
    rw [if_neg (by omega)]
    simp [hs, max_zero_sub_toNat _ _ (show (0:ℤ) ≤ d by omega)]
  · refine get_context_no_leading_system ns d hd (fun m hm => ?_)
    cases ns with
    | nil => simp at hm
    | cons a l =>
      simp only [List.head?_cons, Option.some.injEq] at hm
      subst hm
      exact hns a (List.mem_cons_self a l)

/-- Closed witness for `get_context_window` at a concrete context. -/
theorem get_context_window_witness :
    get_context [⟨.system, "s"⟩, ⟨.user, "a"⟩, ⟨.assistant, "b"⟩, ⟨.user, "c"⟩] (some 2)
      = [⟨.system, "s"⟩, ⟨.assistant, "b"⟩, ⟨.user, "c"⟩] := by
  have h := get_context_window ⟨.system, "s"⟩ rfl
    [⟨.user, "a"⟩, ⟨.assistant, "b"⟩, ⟨.user, "c"⟩]
    (by decide) 2 (by decide)
  rw [h.1]; rfl

/-- C10: when the first message is not system-role, `get_context` at depth
`d ≥ 1` returns exactly the last `min d N` messages with nothing
prepended; a system-role message at a position other than 0 is windowed
like any other message, counts toward the depth, and is dropped when it
falls outside the trailing window. -/
theorem get_context_no_system_head (msgs : List Message)
    (h : ∀ m, msgs.head? = some m → m.role ≠ .system)
    (d : Int) (hd : 1 ≤ d) :
    get_context msgs (some d) = msgs.drop (msgs.length - d.toNat)
    ∧ (get_context msgs (some d)).length = min d.toNat msgs.length := by
  have h1 := get_context_no_leading_system msgs d hd h
  exact ⟨h1, by rw [h1]; exact drop_window_length msgs d.toNat⟩

/-- Closed witness for `get_context_no_system_head`: a mid-list system
message counts toward the depth and survives only inside the window. -/
theorem get_context_no_system_head_witness :
    get_context [⟨.user, "a"⟩, ⟨.system, "s"⟩, ⟨.user, "c"⟩] (some 2)
      = [⟨.system, "s"⟩, ⟨.user, "c"⟩] := by
  have h := get_context_no_system_head [⟨.user, "a"⟩, ⟨.system, "s"⟩, ⟨.user, "c"⟩]
    (by
      intro m hm
      simp only [List.head?_cons, Option.some.injEq] at hm
      subst hm
      decide) 2 (by decide)
  rw [h.1]; rfl

/-- Python `str.strip()`: leading and trailing whitespace removed. -/
def pyStrip (s : String) : String :=
  ⟨((s.data.dropWhile Char.isWhitespace).reverse.dropWhile Char.isWhitespace).reverse⟩

/-- The incoming chat request fields the dispatcher's context construction
uses (`ChatRequest` in `main.py`, minus the provider/model selection). -/
structure ChatRequest where
  messages : List Message
  system_prompt_override : Option String
  context_depth : Option Int
deriving DecidableEq, Repr

/-- The no-override scan of `handle_chat_request` (`main.py` lines
156-167): walk the request messages once, remembering the content of the
first system-role message and collecting the non-system messages in
order. -/
def firstSystemAndRest : List Message → Option String × List Message
  | [] => (none, [])
  | m :: rest =>
    let p := firstSystemAndRest rest
    if m.role = .system then (some m.content, p.2) else (p.1, m :: p.2)

/-- Context construction of `handle_chat_request` (`main.py` lines
146-190): the effective system prompt is the override when one is
supplied (dropping every body system message), else the first body
system-role message, else the process default; it is appended as message
0 only when it is non-empty and non-blank (`if system_prompt_to_use and
system_prompt_to_use.strip()`), followed by the non-system body messages
in their original order. -/
def build_context (default_system_prompt : String) (req : ChatRequest) : List Message :=
  let selected : Option String × List Message :=
    match req.system_prompt_override with
    | some ov => (some ov, req.messages.filter (fun m => !(m.role == .system)))
    | none =>
      let p := firstSystemAndRest req.messages
      match p.1 with
      | some s => (some s, p.2)
      | none => (some default_system_prompt, p.2)
  let ctx0 : List Message :=
    match selected.1 with
    | some s => if s ≠ "" ∧ pyStrip s ≠ "" then [⟨.system, s⟩] else []
    | none => []
  ctx0 ++ selected.2

/-- Outcome of the dispatcher's pre-dispatch validation (`main.py` lines
194-214): either the 400 `HTTPException` (request must contain at least
one user message) or dispatch of the exported context to the provider's
`send_request`. -/
inductive Decision where
  | rejected400
  | dispatched (ctx : List Message)
deriving DecidableEq, Repr

/-- The validation guard of `handle_chat_request`: the 400 rejection is
raised only inside the branch taken when the exported context is empty or
consists entirely of system-role messages. -/
def validate_exported (ctx : List Message) : Decision :=
  if ctx.isEmpty || ctx.all (fun m => m.role == .system) then
    if !(ctx.any (fun m => m.role == .user)) then .rejected400
    else .dispatched ctx
  else .dispatched ctx

/-- Steps 3-6 of the dispatcher for a successfully constructed client:
build the context from the request, export it at the requested depth,
validate, dispatch. -/
def process_request (default_system_prompt : String) (req : ChatRequest) : Decision :=
  validate_exported
    (get_context (build_context default_system_prompt req) req.context_depth)

/-- C2 counterexample: a request whose only body message is
assistant-role yields an exported context with no user-role message, yet
the dispatcher hands it to the provider instead of failing with 400. -/
theorem no_user_message_still_dispatched :
    (∀ m ∈ get_context
        (build_context "default" ⟨[⟨.assistant, "A"⟩], some "sys", some 5⟩) (some 5),
      m.role ≠ .user)
    ∧ process_request "default" ⟨[⟨.assistant, "A"⟩], some "sys", some 5⟩
        = .dispatched [⟨.system, "sys"⟩, ⟨.assistant, "A"⟩] := by
  decide

/-- C2 amended: the dispatcher rejects with 400 (and so never calls the
provider) exactly when the exported context is empty or consists solely
of system-role messages; an exported context containing non-system
messages but no user-role message is dispatched to the provider. -/
theorem validate_exported_rejects_iff (ctx : List Message) :
    validate_exported ctx = .rejected400 ↔ (ctx = [] ∨ ∀ m ∈ ctx, m.role = .system) := by
  constructor
  · intro hr
    by_contra hc
    push_neg at hc
    obtain ⟨hne, m, hm, hrole⟩ := hc
    have hb : (ctx.isEmpty || ctx.all (fun m => m.role == .system)) = false := by
      simp only [Bool.or_eq_false_iff]
      constructor
      · simpa [List.isEmpty_iff] using hne
      · rw [List.all_eq_false]
        exact ⟨m, hm, by simp [hrole]⟩
    unfold validate_exported at hr
    rw [hb] at hr
    simp at hr
  · intro hr
    have hb : (ctx.isEmpty || ctx.all (fun m => m.role == .system)) = true := by
      rcases hr with rfl | hall
      · simp
      · simp only [Bool.or_eq_true, List.all_eq_true]
        exact Or.inr (fun m hm => by simp [hall m hm])
    have hnouser : ctx.any (fun m => m.role == .user) = false := by
      rw [List.any_eq_false]
      intro m hm
      rcases hr with rfl | hall
      · simp at hm
      · simp [hall m hm]
    unfold validate_exported
    rw [hb, hnouser]
    rfl

/-- The error categories raised by provider clients (`exceptions.py`):
`responseError` is `APIResponseError(status_code, message)`. -/
inductive ClientError where
  | invalidKey (msg : String)
  | connectionError (msg : String)
  | responseError (status_code : Int) (msg : String)
  | clientError (msg : String)
deriving DecidableEq, Repr

/-- The `except APIResponseError` branch of `handle_chat_request`
(`main.py` lines 222-234): the external status starts at 500; then
upstream 401 or 403 give 401, 404 gives 404, 429 gives 429, and any other
upstream status in [400, 500) gives 400. -/
def map_response_error_status (status_code : Int) : Nat :=
  if status_code = 401 ∨ status_code = 403 then 401
  else if status_code = 404 then 404
  else if status_code = 429 then 429
  else if 400 ≤ status_code ∧ status_code < 500 then 400
  else 500

/-- C3 counterexample: upstream status 401 lies in [400, 500) and is
neither 404 nor 429, yet the dispatcher maps it to external 401, not the
400 the claim requires. -/
theorem status_401_maps_to_401_not_400 :
    ((400:Int) ≤ 401 ∧ (401:Int) < 500 ∧ (401:Int) ≠ 404 ∧ (401:Int) ≠ 429)
    ∧ map_response_error_status 401 ≠ 400 := by
  decide

/-- C3 amended: the dispatcher maps an `UpstreamResponseError` by its
carried status alone: 401 and 403 to 401, 404 to 404, 429 to 429, any
other status in [400, 500) to 400, and every status outside [400, 500)
to 500. -/
theorem map_response_error_status_cases (s : Int) :
    (map_response_error_status s = 401 ↔ (s = 401 ∨ s = 403))
    ∧ (map_response_error_status s = 404 ↔ s = 404)
    ∧ (map_response_error_status s = 429 ↔ s = 429)
    ∧ (map_response_error_status s = 400 ↔
        (400 ≤ s ∧ s < 500 ∧ s ≠ 401 ∧ s ≠ 403 ∧ s ≠ 404 ∧ s ≠ 429))
    ∧ (map_response_error_status s = 500 ↔ (s < 400 ∨ 500 ≤ s)) := by
  unfold map_response_error_status
  split_ifs <;> omega

/-- C9: an override that is present but empty or whitespace-only discards
the body's system-role messages and does not fall back to the default
instruction: the built context is exactly the non-system body messages
and contains no system-role message at all. -/
theorem blank_override_yields_no_system (default_system_prompt : String)
    (req : ChatRequest) (ov : String)
    (hov : req.system_prompt_override = some ov) (hblank : pyStrip ov = "") :
    build_context default_system_prompt req
      = req.messages.filter (fun m => !(m.role == .system))
    ∧ ∀ m ∈ build_context default_system_prompt req, m.role ≠ .system := by
  have hcond : ¬(ov ≠ "" ∧ pyStrip ov ≠ "") := fun hc => hc.2 hblank
  have hmain : build_context default_system_prompt req
      = req.messages.filter (fun m => !(m.role == .system)) := by
    unfold build_context
    rw [hov]
    simp only [if_neg hcond, List.nil_append]
  refine ⟨hmain, ?_⟩
  intro m hm
  rw [hmain] at hm
  have := (List.mem_filter.mp hm).2
  simpa using this

/-- Closed witness for `blank_override_yields_no_system`: a whitespace
override drops the body system message and adds none of its own. -/
theorem blank_override_yields_no_system_witness :
    build_context "default" ⟨[⟨.system, "X"⟩, ⟨.user, "U"⟩], some "  ", none⟩
      = [⟨.user, "U"⟩] := by
  have h := blank_override_yields_no_system "default"
    ⟨[⟨.system, "X"⟩, ⟨.user, "U"⟩], some "  ", none⟩ "  " rfl (by decide)
  rw [h.1]; rfl

/-- A Gemini API content entry: `{"role": role, "parts": [content]}`. -/
structure GContent where
  role : String
  parts : List String
deriving DecidableEq, Repr

/-- A reference held by `processed_messages` in `GeminiClient.send_request`:
`list(messages)` copies the list but shares the dicts, so each entry is
either an alias of a caller message dict or a dict freshly created inside
the client. -/
inductive MsgRef where
  | ref (i : Nat)
  | fresh (m : Message)
deriving DecidableEq, Repr

/-- Read a message through a reference into the caller's message store. -/
def derefMsg (store : List Message) : MsgRef → Message
  | .ref i => store.getD i ⟨.user, ""⟩
  | .fresh m => m

/-- `GeminiClient.send_request` preprocessing (`gemini_client.py` lines
82-107) with Python aliasing made explicit.  The caller's dicts form the
`store`; `processed_messages` starts as aliases of all of them.  A leading
system message is popped off the copy; a truthy system instruction is
folded into the first remaining user message by the in-place write
`processed_messages[0]["content"] = f"{sys}\n\n{content}"` (which lands in
the shared dict), or, with no remaining messages, appended as a fresh user
turn, or otherwise inserted in front as a fresh user turn.  The survivors
are remapped (`user` stays `"user"`, everything else becomes `"model"`)
into `contents_for_api`, with the empty-list and trailing-non-user
fallbacks.  Returns the store as the caller sees it after the call,
together with `contents_for_api`. -/
def gemini_send_preprocess (store : List Message) :
    List Message × List GContent :=
  let refs : List MsgRef := (List.range store.length).map .ref
  let sysAndProcessed : Option String × List MsgRef :=
    match refs with
    | r :: rest =>
      if (derefMsg store r).role = .system
      then (some (derefMsg store r).content, rest)
      else (none, refs)
    | [] => (none, refs)
  let afterFold : List Message × List MsgRef :=
    match sysAndProcessed.1 with
    | some s =>
      if s = "" then (store, sysAndProcessed.2)
      else
        match sysAndProcessed.2 with
        | p :: rest =>
          if (derefMsg store p).role = .user then
            match p with
            | .ref i =>
              let old := derefMsg store p
              (store.set i ⟨old.role, s ++ "\n\n" ++ old.content⟩, p :: rest)
            | .fresh m => (store, .fresh ⟨m.role, s ++ "\n\n" ++ m.content⟩ :: rest)
          else (store, .fresh ⟨.user, s⟩ :: p :: rest)
        | [] => (store, [.fresh ⟨.user, s⟩])
    | none => (store, sysAndProcessed.2)
  let contents0 : List GContent := afterFold.2.map (fun p =>
    let m := derefMsg afterFold.1 p
    ⟨if m.role = .user then "user" else "model", [m.content]⟩)
  let contents : List GContent :=
    match contents0.getLast? with
    | none => [⟨"user", ["Hello"]⟩]
    | some last =>
      if last.role ≠ "user" then contents0 ++ [⟨"user", ["Продолжай"]⟩]
      else contents0
  (afterFold.1, contents)

/-- C4: `GeminiClient.send_request` mutates the message sequence handed to
it — `list(messages)` copies only the list, so the write
`processed_messages[0]["content"] = ...` lands in the caller's shared user
dict: after a call on `[{system,"S"},{user,"U"}]` the caller's user
message reads `"S\n\nU"`, not `"U"`. -/
theorem gemini_mutates_caller_messages :
    (gemini_send_preprocess [⟨.system, "S"⟩, ⟨.user, "U"⟩]).1
      = [⟨.system, "S"⟩, ⟨.user, "S\n\nU"⟩]
    ∧ (gemini_send_preprocess [⟨.system, "S"⟩, ⟨.user, "U"⟩]).1
      ≠ [⟨.system, "S"⟩, ⟨.user, "U"⟩] := by
  decide

/-- C6: Gemini preprocessing sends `[{system,"S"},{user,"U"}]` upstream as
a single user-role turn with content `"S\n\nU"`, and `[{system,"S"}]`
alone as one synthesized user-role turn with content `"S"`. -/
theorem gemini_preprocessing_folds_system :
    (gemini_send_preprocess [⟨.system, "S"⟩, ⟨.user, "U"⟩]).2
      = [⟨"user", ["S\n\nU"]⟩]
    ∧ (gemini_send_preprocess [⟨.system, "S"⟩]).2 = [⟨"user", ["S"]⟩] := by
  decide

/-- Python `str.capitalize()`: first character upper-cased, the rest
lower-cased. -/
def pyCapitalize (s : String) : String :=
  match s.data with
  | [] => ""
  | c :: rest => ⟨c.toUpper :: rest.map Char.toLower⟩

/-- The wire string of a message role. -/
def roleStr : Role → String
  | .system => "system"
  | .user => "user"
  | .assistant => "assistant"

/-- The JSON payload `OllamaClient.send_request` posts to `/api/generate`. -/
structure OllamaPayload where
  model : String
  prompt : String
  stream : Bool
  system : Option String
deriving DecidableEq, Repr

/-- Payload construction of `OllamaClient.send_request`
(`ollama_client.py` lines 23-50): a leading system message is popped into
a separate optional `system` field (set only when truthy); the remaining
messages are rendered `"<Capitalized-Role>: <content>"` and joined with
newlines into `full_prompt`; an empty prompt with a truthy system
instruction falls back to `"Hello"`. -/
def ollama_build_payload (model_name : String) (messages : List Message) :
    OllamaPayload :=
  let sysAndRest : Option String × List Message :=
    match messages with
    | m :: rest => if m.role = .system then (some m.content, rest) else (none, messages)
    | [] => (none, [])
  let prompt_parts := sysAndRest.2.map
    (fun m => pyCapitalize (roleStr m.role) ++ ": " ++ m.content)
  let full_prompt := String.intercalate "\n" prompt_parts
  let full_prompt :=
    match sysAndRest.1 with
    | some s => if full_prompt = "" ∧ s ≠ "" then "Hello" else full_prompt
    | none => full_prompt
  { model := model_name
    prompt := full_prompt
    stream := false
    system :=
      match sysAndRest.1 with
      | some s => if s ≠ "" then some s else none
      | none => none }

/-- C7: Ollama preprocessing flattens `[{system,"S"},{user,"U1"},
{assistant,"A1"}]` into the prompt body `"User: U1\nAssistant: A1"`,
while the system instruction `"S"` travels in the payload's separate
`system` field and is not inlined into the prompt body. -/
theorem ollama_preprocessing_separates_system :
    (ollama_build_payload "qwen2.5:7b"
        [⟨.system, "S"⟩, ⟨.user, "U1"⟩, ⟨.assistant, "A1"⟩]).prompt
      = "User: U1\nAssistant: A1"
    ∧ (ollama_build_payload "qwen2.5:7b"
        [⟨.system, "S"⟩, ⟨.user, "U1"⟩, ⟨.assistant, "A1"⟩]).system
      = some "S" := by
  decide

/-- The decoded shape of an Ollama reply body: a JSON object with its
optional `response` and `error` fields, or a body that is not valid
JSON. -/
inductive OllamaBody where
  | json (response : Option String) (error : Option String)
  | invalidJson (text : String)
deriving DecidableEq, Repr

/-- What the upstream HTTP library reports for the provider call: a
timeout, another request/connection failure, or a reachable reply with a
status code and a body. -/
inductive HttpOutcome where
  | timeout
  | connError
  | reply (status : Int) (body : OllamaBody)
deriving DecidableEq, Repr

/-- Result and error handling of `OllamaClient.send_request`
(`ollama_client.py` lines 54-100).  `response.raise_for_status()` raises
`requests.exceptions.HTTPError` for any status >= 400; `HTTPError` is a
subclass of `requests.exceptions.RequestException`, so the exception is
caught by the `except RequestException` arm and re-raised as
`APIConnectionError`.  Only a success-status body reaches the JSON
inspection: a truthy `response` field is returned stripped, an `error`
field or an unexpected structure or an undecodable body raises
`APIResponseError` with the (successful) reply status. -/
def ollama_handle_outcome (api_url : String) (o : HttpOutcome) :
    Except ClientError String :=
  match o with
  | .timeout =>
    .error (.connectionError ("Timeout connecting to Ollama at " ++ api_url))
  | .connError =>
    .error (.connectionError ("Error connecting to Ollama at " ++ api_url))
  | .reply status body =>
    if 400 ≤ status then
      .error (.connectionError ("Error connecting to Ollama at " ++ api_url))
    else
      match body with
      | .json resp err =>
        let fallback : Except ClientError String :=
          match err with
          | some e => .error (.responseError status ("Ollama API error: " ++ e))
          | none =>
            .error (.responseError status "Unexpected response structure from Ollama")
        match resp with
        | some r => if r ≠ "" then .ok (pyStrip r) else fallback
        | none => fallback
      | .invalidJson text =>
        .error (.responseError status
          ("Failed to decode JSON response from Ollama. Response text: " ++ text))

/-- C5: an Ollama upstream reply with non-success status 500 surfaces as
`APIConnectionError` (the connection-failure category, external 503) and
not as `APIResponseError` carrying the upstream status: the `HTTPError`
raised by `raise_for_status` is swallowed by the `except
RequestException` arm. -/
theorem ollama_non_success_status_becomes_connection_error :
    ollama_handle_outcome "http://localhost:11434/api/generate"
        (.reply 500 (.json none (some "boom")))
      = .error (.connectionError
          "Error connecting to Ollama at http://localhost:11434/api/generate")
    ∧ ∀ s msg,
        ollama_handle_outcome "http://localhost:11434/api/generate"
          (.reply 500 (.json none (some "boom")))
        ≠ .error (.responseError s msg) := by
  refine ⟨rfl, fun s msg h => ?_⟩
  have h2 : Except.error (ClientError.connectionError
      "Error connecting to Ollama at http://localhost:11434/api/generate")
      = (Except.error (ClientError.responseError s msg) : Except ClientError String) := h
  simp at h2

/-- Construction outcome of a credential-requiring client: either the
`InvalidAPIKeyError` raised by the empty-credential guard, or a
constructed instance recording how many outbound network calls
construction itself performed. -/
inductive InitOutcome where
  | invalidKey (msg : String)
  | constructed (network_calls : Nat)
deriving DecidableEq, Repr

/-- Python truthiness of the `api_key` argument (`if not api_key:`):
`None` and `""` are falsy. -/
def credentialMissing : Option String → Bool
  | none => true
  | some s => s == ""

/-- `OpenAIClient.__init__` (`openai_client.py` lines 15-28): the
empty-key guard precedes everything; the `openai.OpenAI(...)` constructor
performs no network call. -/
def openai_init (api_key : Option String) : InitOutcome :=
  if credentialMissing api_key then
    .invalidKey "OpenAI API key not found. Set it in .env or pass it directly."
  else .constructed 0

/-- `DeepSeekClient.__init__` (`deepseek_client.py` lines 17-25): the
empty-key guard is the whole constructor; no network call is made. -/
def deepseek_init (api_key : Option String) : InitOutcome :=
  if credentialMissing api_key then
    .invalidKey "DeepSeek API key not found. Set it in .env or pass it directly."
  else .constructed 0

/-- `GeminiClient.__init__` (`gemini_client.py` lines 15-31): the
empty-key guard runs first; only on its success path does construction
reach `genai.configure` and `_check_model_availability`, whose
`genai.list_models()` is the network call. -/
def gemini_init (api_key : Option String) : InitOutcome :=
  if credentialMissing api_key then
    .invalidKey "Gemini API key not found. Set it in .env or pass it directly."
  else .constructed 1

/-- C8: constructing any credential-requiring client (OpenAI, DeepSeek,
Gemini) with a missing (`None`) or empty credential fails immediately
with `InvalidAPIKeyError` and never yields a constructed instance — in
particular the failure precedes the network call Gemini's constructed
path would perform. -/
theorem empty_credential_fails_construction (api_key : Option String)
    (h : api_key = none ∨ api_key = some "") :
    (∃ m, openai_init api_key = .invalidKey m)
    ∧ (∃ m, deepseek_init api_key = .invalidKey m)
    ∧ (∃ m, gemini_init api_key = .invalidKey m)
    ∧ ∀ n, gemini_init api_key ≠ .constructed n := by
  have hm : credentialMissing api_key = true := by rcases h with rfl | rfl <;> rfl
  refine ⟨⟨"OpenAI API key not found. Set it in .env or pass it directly.", ?_⟩,
    ⟨"DeepSeek API key not found. Set it in .env or pass it directly.", ?_⟩,
    ⟨"Gemini API key not found. Set it in .env or pass it directly.", ?_⟩,
    fun n => ?_⟩ <;>
    simp [openai_init, deepseek_init, gemini_init, hm]

/-- Closed witness for `empty_credential_fails_construction` at the empty
string credential. -/
theorem empty_credential_fails_construction_witness :
    ∃ m, openai_init (some "") = .invalidKey m :=
  (empty_credential_fails_construction (some "") (Or.inr rfl)).1
